import Mathlib

/-!
Verification of the go-tripper circuit breaker.

The development shallowly embeds the circuit state engine of the repository:

* `CircuitImplementation` together with `ConfigureCircuit`,
  `CircuitImplementation.UpdateStatus`, `CircuitImplementation.IsCircuitOpen`
  and the ticker rollover body (`CircuitImplementation.tickerReset`) embeds
  the current engine (the `CircuitImplementation` code: three threshold
  policies COUNT / PERCENTAGE / CONSECUTIVE, `>=` comparisons,
  edge-triggered callbacks, ticker-driven window reset).
* `Monitor`, `updateStatusByMonitor` and `IsCircuitOpen` embed the legacy
  package-level engine (two policies, strict `>` comparisons, wall-clock
  aligned windows, lazy stale-window handling on read).

Go `int64` counters are modelled as `ℕ` (they are only ever incremented or
reset to zero) and timestamps as `ℤ` (Unix seconds).  The `float32`
threshold is modelled as `ℚ`: the engine never does float arithmetic, it
only converts integer counters to `float32` for comparison (exact for all
realistic counter values) or truncates the threshold to `int64`
(`truncRat` below).  Wall-clock reads (`getTimestamp`,
`getStartOfIntervalTimestamp`) are passed in as explicit `now` arguments.
Optional callbacks are modelled by presence flags plus an explicit list of
the callback invocations an operation performs.
-/

/-- The three threshold policies, `COUNT`, `PERCENTAGE` and `CONSECUTIVE`.
The Go code stores the policy as a string and validates membership in
`thresholdTypes`; the closed inductive type plays the role of that
membership check. -/
inductive ThresholdType where
  | count
  | percentage
  | consecutive
deriving DecidableEq

/-- Go conversion `int64(f)` of a `float32`: truncation toward zero. -/
def truncRat (q : ℚ) : ℤ :=
  if 0 ≤ q then q.floor else q.ceil

/-- `CircuitOptions` of the current engine.  `onCircuitOpen` and
`onCircuitClosed` record whether the optional callback is non-nil; the
`Name` field is registry bookkeeping and not part of the state engine. -/
structure CircuitOptions where
  threshold : ℚ
  thresholdType : ThresholdType
  minimumCount : ℤ
  intervalInSeconds : ℤ
  onCircuitOpen : Bool
  onCircuitClosed : Bool
deriving DecidableEq

/-- `CallbackEvent`: the snapshot handed to a transition callback. -/
structure CallbackEvent where
  timestamp : ℤ
  successCount : ℕ
  failureCount : ℕ
deriving DecidableEq

/-- A callback invocation performed by an operation: either the
`OnCircuitOpen` or the `OnCircuitClosed` callback, with its event. -/
inductive CallbackCall where
  | onOpen (e : CallbackEvent)
  | onClosed (e : CallbackEvent)
deriving DecidableEq

/-- Mutable state of `CircuitImplementation` (ticker and mutex handles are
runtime plumbing and carry no state the claims mention). -/
structure CircuitImplementation where
  options : CircuitOptions
  failureCount : ℕ
  successCount : ℕ
  circuitOpen : Bool
  lastCapturedAt : ℤ
  circuitOpenedSince : ℤ
  consecutiveCounter : ℕ
deriving DecidableEq

/-- The freshly constructed circuit built by `ConfigureCircuit`: all
counters, timestamps and the open flag start at their zero values. -/
def initialCircuit (o : CircuitOptions) : CircuitImplementation :=
  { options := o
    failureCount := 0
    successCount := 0
    circuitOpen := false
    lastCapturedAt := 0
    circuitOpenedSince := 0
    consecutiveCounter := 0 }

/-- `ConfigureCircuit` validation, in source order.  The threshold-type
string membership check is absorbed by `ThresholdType` being a closed
inductive.  `int64(monitorOptions.Threshold)` is `truncRat`. -/
def ConfigureCircuit (o : CircuitOptions) : Except String CircuitImplementation :=
  if o.thresholdType = ThresholdType.percentage ∧ (o.threshold < 0 ∨ o.threshold > 100) then
    Except.error "invalid threshold value for percentage type"
  else if o.thresholdType = ThresholdType.count ∧ o.threshold ≤ 0 then
    Except.error "invalid threshold value for count type"
  else if o.minimumCount < 1 then
    Except.error "invalid minimum count"
  else if o.thresholdType = ThresholdType.count ∧ o.minimumCount ≤ truncRat o.threshold then
    Except.error "minimum count should be greater than threshold"
  else if o.intervalInSeconds < 5 then
    Except.error "invalid interval"
  else
    Except.ok (initialCircuit o)

/-- First phase of `UpdateStatus`: record the timestamp and the outcome
(`m.LastCapturedAt = getTimestamp()` followed by the success/failure
branch that maintains the counters and the consecutive-failure counter). -/
def CircuitImplementation.bump (m : CircuitImplementation) (success : Bool) (now : ℤ) :
    CircuitImplementation :=
  if success then
    { m with lastCapturedAt := now, consecutiveCounter := 0,
             successCount := m.successCount + 1 }
  else
    { m with lastCapturedAt := now, consecutiveCounter := m.consecutiveCounter + 1,
             failureCount := m.failureCount + 1 }

/-- The threshold evaluation of `UpdateStatus`: the common boolean decided
by the three `if`/`else if` policy blocks.  `float32(count) >= Threshold`
is the exact comparison `(count : ℚ) ≥ threshold`;
`int64(Threshold)` is `truncRat`. -/
def CircuitImplementation.shouldOpen (m : CircuitImplementation) : Bool :=
  match m.options.thresholdType with
  | ThresholdType.count =>
      decide ((m.failureCount : ℚ) ≥ m.options.threshold)
  | ThresholdType.percentage =>
      let totalRequests := m.failureCount + m.successCount
      let failurePercentage := m.failureCount * 100 / totalRequests
      decide ((failurePercentage : ℚ) ≥ m.options.threshold)
  | ThresholdType.consecutive =>
      decide ((m.consecutiveCounter : ℤ) ≥ truncRat m.options.threshold)

/-- `CircuitImplementation.UpdateStatus`.  Returns the updated circuit and
the callback invocations the call performs (empty when below the minimum
count, when the state does not change, or when the relevant callback is
nil).  `now` stands for the `getTimestamp()` read. -/
def CircuitImplementation.UpdateStatus (m : CircuitImplementation) (success : Bool) (now : ℤ) :
    CircuitImplementation × List CallbackCall :=
  let m1 := m.bump success now
  if (m1.successCount + m1.failureCount : ℤ) < m1.options.minimumCount then
    (m1, [])
  else
    let currentStateOfCircuit := m1.circuitOpen
    let m2 :=
      if m1.shouldOpen then
        { m1 with circuitOpen := true, circuitOpenedSince := m1.lastCapturedAt }
      else
        { m1 with circuitOpen := false, circuitOpenedSince := 0 }
    let ev : CallbackEvent :=
      { timestamp := m2.lastCapturedAt
        successCount := m2.successCount
        failureCount := m2.failureCount }
    let calls : List CallbackCall :=
      if currentStateOfCircuit ≠ m2.circuitOpen ∧ m2.circuitOpen = true then
        if m2.options.onCircuitOpen then [CallbackCall.onOpen ev] else []
      else if currentStateOfCircuit ≠ m2.circuitOpen ∧ m2.circuitOpen = false then
        if m2.options.onCircuitClosed then [CallbackCall.onClosed ev] else []
      else []
    (m2, calls)

/-- `CircuitImplementation.IsCircuitOpen`: a plain read of the flag. -/
def CircuitImplementation.IsCircuitOpen (m : CircuitImplementation) : Bool :=
  m.circuitOpen

/-- Body of the ticker goroutine started by `ConfigureCircuit`: on every
tick all counters, the opened-since timestamp and the consecutive counter
are zeroed, the circuit is closed, and `OnCircuitClosed` is invoked (if
non-nil) with the already-zeroed counters.  `now` stands for the
`getTimestamp()` read inside the callback event. -/
def CircuitImplementation.tickerReset (m : CircuitImplementation) (now : ℤ) :
    CircuitImplementation × List CallbackCall :=
  let m1 :=
    { m with successCount := 0, failureCount := 0, circuitOpenedSince := 0,
             consecutiveCounter := 0, circuitOpen := false }
  (m1,
    if m.options.onCircuitClosed then
      [CallbackCall.onClosed { timestamp := now, successCount := 0, failureCount := 0 }]
    else [])

/-- Run a sequence of `UpdateStatus` calls (each with its own timestamp),
collecting every callback invocation in order. -/
def runUpdates (m : CircuitImplementation) : List (Bool × ℤ) → CircuitImplementation × List CallbackCall
  | [] => (m, [])
  | (b, t) :: rest =>
      let r := m.UpdateStatus b t
      let r2 := runUpdates r.1 rest
      (r2.1, r.2 ++ r2.2)

/-- Whether a callback invocation is an `OnCircuitOpen` invocation. -/
def isOpenCall : CallbackCall → Bool
  | CallbackCall.onOpen _ => true
  | CallbackCall.onClosed _ => false

/-- Whether a callback invocation is an `OnCircuitClosed` invocation. -/
def isClosedCall : CallbackCall → Bool
  | CallbackCall.onOpen _ => false
  | CallbackCall.onClosed _ => true

/-- `OnCircuitOpen` fires during a call iff its invocation list has an
open invocation. -/
def firesOnOpen (calls : List CallbackCall) : Bool :=
  calls.any isOpenCall

/-- `OnCircuitClosed` fires during a call iff its invocation list has a
closed invocation. -/
def firesOnClosed (calls : List CallbackCall) : Bool :=
  calls.any isClosedCall

/-- Length of the trailing run of failures (`false` outcomes) of a
recorded outcome sequence. -/
def trailingFailures (xs : List Bool) : ℕ :=
  (xs.reverse.takeWhile (fun b => !b)).length

/-- States of the current engine reachable from construction by
`UpdateStatus` calls (at positive Unix timestamps) and ticker rollovers. -/
inductive Reachable (opts : CircuitOptions) : CircuitImplementation → Prop where
  | init : Reachable opts (initialCircuit opts)
  | update (s : CircuitImplementation) (b : Bool) (now : ℤ) (hnow : 0 < now)
      (h : Reachable opts s) : Reachable opts (s.UpdateStatus b now).1
  | reset (s : CircuitImplementation) (now : ℤ)
      (h : Reachable opts s) : Reachable opts (s.tickerReset now).1

/-- Legacy package-level `Monitor` state (the `Name` key is registry
bookkeeping; the remaining fields are the engine state). -/
structure Monitor where
  circuitOpen : Bool
  lastCapturedAt : ℤ
  circuitOpenedSince : ℤ
  failureCount : ℕ
  successCount : ℕ
  threshold : ℚ
  thresholdType : ThresholdType
  minimumCount : ℤ
  intervalInSeconds : ℤ
deriving DecidableEq

/-- Legacy `updateStatusByMonitor`.  `currentTs` stands for
`getStartOfIntervalTimestamp(monitor)`.  The legacy engine knows only the
COUNT and PERCENTAGE policies and compares with strict `>`; the final
`else` branch of the Go code is the percentage branch. -/
def updateStatusByMonitor (m : Monitor) (success : Bool) (currentTs : ℤ) : Monitor :=
  let m1 :=
    if currentTs - m.lastCapturedAt ≥ m.intervalInSeconds then
      { m with successCount := 0, failureCount := 0, circuitOpenedSince := 0 }
    else m
  let m2 := { m1 with lastCapturedAt := currentTs }
  let m3 :=
    if success then { m2 with successCount := m2.successCount + 1 }
    else { m2 with failureCount := m2.failureCount + 1 }
  let m4 := { m3 with circuitOpen := false }
  if (m4.successCount + m4.failureCount : ℤ) < m4.minimumCount then
    m4
  else if m4.thresholdType = ThresholdType.count then
    if (m4.failureCount : ℚ) > m4.threshold then
      { m4 with circuitOpen := true, circuitOpenedSince := m4.lastCapturedAt }
    else m4
  else
    let totalRequests := m4.failureCount + m4.successCount
    let failurePercentage := m4.failureCount * 100 / totalRequests
    if (failurePercentage : ℚ) > m4.threshold then
      { m4 with circuitOpen := true, circuitOpenedSince := m4.lastCapturedAt }
    else m4

/-- Legacy `IsCircuitOpen` on a monitor: the stale-window handling clears
the open flag once the window has elapsed, then the flag is returned.
`now` stands for `getStartOfIntervalTimestamp(monitor)`. -/
def IsCircuitOpen (m : Monitor) (now : ℤ) : Monitor × Bool :=
  let m1 :=
    if m.circuitOpen = true ∧ now - m.circuitOpenedSince ≥ m.intervalInSeconds then
      { m with circuitOpen := false }
    else m
  (m1, m1.circuitOpen)

/-! ### Basic facts about a single `UpdateStatus` call -/

lemma bump_options (m : CircuitImplementation) (b : Bool) (now : ℤ) :
    (m.bump b now).options = m.options := by
  cases b <;> simp [CircuitImplementation.bump]

lemma bump_circuitOpen (m : CircuitImplementation) (b : Bool) (now : ℤ) :
    (m.bump b now).circuitOpen = m.circuitOpen := by
  cases b <;> simp [CircuitImplementation.bump]

lemma bump_circuitOpenedSince (m : CircuitImplementation) (b : Bool) (now : ℤ) :
    (m.bump b now).circuitOpenedSince = m.circuitOpenedSince := by
  cases b <;> simp [CircuitImplementation.bump]

lemma bump_lastCapturedAt (m : CircuitImplementation) (b : Bool) (now : ℤ) :
    (m.bump b now).lastCapturedAt = now := by
  cases b <;> simp [CircuitImplementation.bump]

lemma bump_successCount (m : CircuitImplementation) (b : Bool) (now : ℤ) :
    (m.bump b now).successCount = m.successCount + (if b then 1 else 0) := by
  cases b <;> simp [CircuitImplementation.bump]

lemma bump_failureCount (m : CircuitImplementation) (b : Bool) (now : ℤ) :
    (m.bump b now).failureCount = m.failureCount + (if b then 0 else 1) := by
  cases b <;> simp [CircuitImplementation.bump]

lemma bump_consecutiveCounter (m : CircuitImplementation) (b : Bool) (now : ℤ) :
    (m.bump b now).consecutiveCounter = if b then 0 else m.consecutiveCounter + 1 := by
  cases b <;> simp [CircuitImplementation.bump]

/-- When the incremented counters are still below the minimum count,
`UpdateStatus` is exactly the counter update and performs no callback. -/
lemma UpdateStatus_below_min (m : CircuitImplementation) (b : Bool) (now : ℤ)
    (h : ((m.bump b now).successCount + (m.bump b now).failureCount : ℤ) <
      m.options.minimumCount) :
    m.UpdateStatus b now = (m.bump b now, []) := by
  rw [CircuitImplementation.UpdateStatus]
  simp only [bump_options, h, if_pos]

/-- When the incremented counters reach the minimum count, the new open
flag is the threshold evaluation. -/
lemma UpdateStatus_circuitOpen_eval (m : CircuitImplementation) (b : Bool) (now : ℤ)
    (h : ¬ ((m.bump b now).successCount + (m.bump b now).failureCount : ℤ) <
      m.options.minimumCount) :
    (m.UpdateStatus b now).1.circuitOpen = (m.bump b now).shouldOpen := by
  rw [CircuitImplementation.UpdateStatus]
  simp only [bump_options, h, if_neg, if_false]
  by_cases hs : (m.bump b now).shouldOpen <;> simp [hs]

/-- The threshold evaluation never changes the counters. -/
lemma UpdateStatus_counts (m : CircuitImplementation) (b : Bool) (now : ℤ) :
    (m.UpdateStatus b now).1.successCount = (m.bump b now).successCount ∧
    (m.UpdateStatus b now).1.failureCount = (m.bump b now).failureCount ∧
    (m.UpdateStatus b now).1.consecutiveCounter = (m.bump b now).consecutiveCounter := by
  rw [CircuitImplementation.UpdateStatus]
  by_cases h : ((m.bump b now).successCount + (m.bump b now).failureCount : ℤ) <
      (m.bump b now).options.minimumCount
  · simp [h]
  · simp only [h, if_false]
    by_cases hs : (m.bump b now).shouldOpen <;> simp [hs]

/-- `UpdateStatus` never changes the configuration. -/
lemma UpdateStatus_options (m : CircuitImplementation) (b : Bool) (now : ℤ) :
    (m.UpdateStatus b now).1.options = m.options := by
  rw [CircuitImplementation.UpdateStatus]
  by_cases h : ((m.bump b now).successCount + (m.bump b now).failureCount : ℤ) <
      (m.bump b now).options.minimumCount
  · rw [bump_options] at h
    simp [h, bump_options]
  · simp only [h, if_false]
    by_cases hs : (m.bump b now).shouldOpen <;> simp only [hs, if_true, if_false] <;>
      simp [bump_options]

/-- Once the minimum count is reached, the opened-since timestamp is the
call timestamp when opening and zero when closing. -/
lemma UpdateStatus_openedSince_eval (m : CircuitImplementation) (b : Bool) (now : ℤ)
    (h : ¬ ((m.bump b now).successCount + (m.bump b now).failureCount : ℤ) <
      m.options.minimumCount) :
    (m.UpdateStatus b now).1.circuitOpenedSince =
      if (m.bump b now).shouldOpen then now else 0 := by
  rw [CircuitImplementation.UpdateStatus]
  simp only [bump_options, h, if_false]
  by_cases hs : (m.bump b now).shouldOpen <;> simp [hs, bump_lastCapturedAt]

/-- With a registered `OnCircuitOpen` callback, the open callback fires on
a call exactly when the call flips the state from closed to open. -/
lemma firesOnOpen_UpdateStatus (m : CircuitImplementation) (b : Bool) (now : ℤ)
    (hO : m.options.onCircuitOpen = true) :
    firesOnOpen (m.UpdateStatus b now).2 =
      (!m.circuitOpen && (m.UpdateStatus b now).1.circuitOpen) := by
  rw [CircuitImplementation.UpdateStatus]
  by_cases h : ((m.bump b now).successCount + (m.bump b now).failureCount : ℤ) <
      (m.bump b now).options.minimumCount
  · simp [h, bump_circuitOpen, firesOnOpen]
  · simp only [h, if_false]
    have hO1 : (m.bump b now).options.onCircuitOpen = true := by rw [bump_options]; exact hO
    by_cases hs : (m.bump b now).shouldOpen <;>
      cases hc : m.circuitOpen <;>
        simp [hs, hc, bump_circuitOpen, hO1, firesOnOpen, isOpenCall]

/-- With a registered `OnCircuitClosed` callback, the closed callback
fires on a call exactly when the call flips the state from open to
closed. -/
lemma firesOnClosed_UpdateStatus (m : CircuitImplementation) (b : Bool) (now : ℤ)
    (hC : m.options.onCircuitClosed = true) :
    firesOnClosed (m.UpdateStatus b now).2 =
      (m.circuitOpen && !(m.UpdateStatus b now).1.circuitOpen) := by
  rw [CircuitImplementation.UpdateStatus]
  by_cases h : ((m.bump b now).successCount + (m.bump b now).failureCount : ℤ) <
      (m.bump b now).options.minimumCount
  · simp [h, bump_circuitOpen, firesOnClosed]
  · simp only [h, if_false]
    have hC1 : (m.bump b now).options.onCircuitClosed = true := by rw [bump_options]; exact hC
    by_cases hs : (m.bump b now).shouldOpen <;>
      cases hc : m.circuitOpen <;>
        simp [hs, hc, bump_circuitOpen, hC1, firesOnClosed, isClosedCall]

/-- Single-call form of the consecutive-failure counter update: a success
zeroes the run, a failure extends it by one. -/
lemma UpdateStatus_consecutiveCounter (m : CircuitImplementation) (b : Bool) (now : ℤ) :
    (m.UpdateStatus b now).1.consecutiveCounter =
      if b then 0 else m.consecutiveCounter + 1 := by
  obtain ⟨_, _, hc⟩ := UpdateStatus_counts m b now
  rw [hc, bump_consecutiveCounter]

/-! ### Reachable-state invariants -/

lemma reachable_options {opts : CircuitOptions} {s : CircuitImplementation}
    (h : Reachable opts s) : s.options = opts := by
  induction h with
  | init => rfl
  | update s b now hnow h ih => rw [UpdateStatus_options]; exact ih
  | reset s now h ih => simpa [CircuitImplementation.tickerReset] using ih

/-- In every reachable state, the circuit is closed while the counters of
the current window are below the minimum count. -/
lemma reachable_closed_below_min {opts : CircuitOptions} {s : CircuitImplementation}
    (h : Reachable opts s)
    (hlt : (s.successCount + s.failureCount : ℤ) < opts.minimumCount) :
    s.circuitOpen = false := by
  revert hlt
  induction h with
  | init => intro hlt; rfl
  | reset s now h ih =>
      intro hlt
      simp [CircuitImplementation.tickerReset]
  | update s b now hnow h ih =>
      intro hlt
      have hopts : s.options = opts := reachable_options h
      obtain ⟨hsc, hfc, _⟩ := UpdateStatus_counts s b now
      by_cases hg : ((s.bump b now).successCount + (s.bump b now).failureCount : ℤ) <
          s.options.minimumCount
      · rw [UpdateStatus_below_min s b now hg, bump_circuitOpen]
        apply ih
        rw [UpdateStatus_below_min s b now hg] at hlt
        have h1 := bump_successCount s b now
        have h2 := bump_failureCount s b now
        simp only [h1, h2] at hlt
        cases b <;> (push_cast at hlt ⊢; omega)
      · exfalso
        rw [hsc, hfc] at hlt
        rw [hopts] at hg
        exact hg hlt

/-- In every reachable state, the open flag and the opened-since timestamp
are coupled: open states carry a positive timestamp, closed states a zero
one. -/
lemma reachable_coupling {opts : CircuitOptions} {s : CircuitImplementation}
    (h : Reachable opts s) :
    (s.circuitOpen = true → 0 < s.circuitOpenedSince) ∧
    (s.circuitOpen = false → s.circuitOpenedSince = 0) := by
  induction h with
  | init => simp [initialCircuit]
  | reset s now h ih => simp [CircuitImplementation.tickerReset]
  | update s b now hnow h ih =>
      by_cases hg : ((s.bump b now).successCount + (s.bump b now).failureCount : ℤ) <
          s.options.minimumCount
      · rw [UpdateStatus_below_min s b now hg]
        simpa [bump_circuitOpen, bump_circuitOpenedSince] using ih
      · have hopen := UpdateStatus_circuitOpen_eval s b now hg
        have hsince := UpdateStatus_openedSince_eval s b now hg
        by_cases hs : (s.bump b now).shouldOpen
        · rw [hopen, hsince]; simp [hs, hnow]
        · rw [hopen, hsince]; simp [hs]

/-! ### Sequences of calls -/

lemma runUpdates_append (m : CircuitImplementation) (xs ys : List (Bool × ℤ)) :
    runUpdates m (xs ++ ys) =
      ((runUpdates (runUpdates m xs).1 ys).1,
        (runUpdates m xs).2 ++ (runUpdates (runUpdates m xs).1 ys).2) := by
  induction xs generalizing m with
  | nil => simp [runUpdates]
  | cons p rest ih =>
      cases p with
      | mk b t => simp [runUpdates, ih, List.append_assoc]

lemma trailingFailures_concat (xs : List Bool) (b : Bool) :
    trailingFailures (xs ++ [b]) = if b then 0 else trailingFailures xs + 1 := by
  cases b <;> simp [trailingFailures, List.takeWhile]

/-- Starting from a fresh circuit, the consecutive-failure counter after
any sequence of `UpdateStatus` calls is the length of the trailing run of
failures of the recorded outcomes. -/
lemma runUpdates_consecutiveCounter (opts : CircuitOptions) (xs : List (Bool × ℤ)) :
    (runUpdates (initialCircuit opts) xs).1.consecutiveCounter =
      trailingFailures (xs.map Prod.fst) := by
  induction xs using List.reverseRecOn with
  | nil => simp [runUpdates, trailingFailures, initialCircuit]
  | append_singleton rest p ih =>
      cases p with
      | mk b t =>
        rw [runUpdates_append]
        simp [runUpdates, trailingFailures_concat, UpdateStatus_consecutiveCounter, ih]

/-! ### Claim theorems -/

/-- Concrete Count-policy configuration used to witness claim C1. -/
def c1opts : CircuitOptions :=
  { threshold := 2, thresholdType := ThresholdType.count, minimumCount := 3,
    intervalInSeconds := 60, onCircuitOpen := false, onCircuitClosed := false }

/-- Claim C1: for every Count-policy circuit, after any `UpdateStatus`
call at which the recorded outcomes of the window reach the minimum
count, the circuit is open exactly when `failureCount ≥ thresholdValue`
(the `>=` comparison), independently of the success count. -/
theorem count_policy_open_iff (m : CircuitImplementation) (b : Bool) (now : ℤ)
    (htype : m.options.thresholdType = ThresholdType.count)
    (hmin : ((m.UpdateStatus b now).1.successCount +
        (m.UpdateStatus b now).1.failureCount : ℤ) ≥ m.options.minimumCount) :
    (m.UpdateStatus b now).1.circuitOpen = true ↔
      ((m.UpdateStatus b now).1.failureCount : ℚ) ≥ m.options.threshold := by
  obtain ⟨hsc, hfc, _⟩ := UpdateStatus_counts m b now
  have hg : ¬ ((m.bump b now).successCount + (m.bump b now).failureCount : ℤ) <
      m.options.minimumCount := by
    rw [hsc, hfc] at hmin
    omega
  rw [UpdateStatus_circuitOpen_eval m b now hg, hfc]
  simp only [CircuitImplementation.shouldOpen, bump_options, htype, decide_eq_true_eq]

/-- Witness for C1: two failures then a success against
`threshold=2, minimumCount=3` reach the minimum count and leave the
circuit open, matching `failureCount = 2 ≥ 2`. -/
theorem count_policy_open_iff_witness :
    (let s2 := (runUpdates (initialCircuit c1opts) [(false, 1), (false, 2)]).1
     s2.options.thresholdType = ThresholdType.count ∧
      ((s2.UpdateStatus true 3).1.successCount +
        (s2.UpdateStatus true 3).1.failureCount : ℤ) ≥ s2.options.minimumCount ∧
      ((s2.UpdateStatus true 3).1.circuitOpen = true ↔
        ((s2.UpdateStatus true 3).1.failureCount : ℚ) ≥ s2.options.threshold)) :=
  ⟨by decide, by decide,
    count_policy_open_iff (runUpdates (initialCircuit c1opts) [(false, 1), (false, 2)]).1
      true 3 (by decide) (by decide)⟩

/-- The Percentage configuration of spec property P4, used in claim C2. -/
def c2opts : CircuitOptions :=
  { threshold := 34, thresholdType := ThresholdType.percentage, minimumCount := 3,
    intervalInSeconds := 60, onCircuitOpen := false, onCircuitClosed := false }

/-- Claim C2: for every Percentage-policy circuit, after any
`UpdateStatus` call at which the recorded outcomes reach the minimum
count, the circuit is open exactly when
`failureCount * 100 / (failureCount + successCount)` — integer-truncating
division — is `≥ thresholdValue`; in particular recording
`[false, true, true]` against `threshold=34, minimumCount=3` leaves the
circuit closed because `100 / 3 = 33 < 34`. -/
theorem percentage_policy_open_iff (m : CircuitImplementation) (b : Bool) (now : ℤ)
    (htype : m.options.thresholdType = ThresholdType.percentage)
    (hmin : ((m.UpdateStatus b now).1.successCount +
        (m.UpdateStatus b now).1.failureCount : ℤ) ≥ m.options.minimumCount) :
    ((m.UpdateStatus b now).1.circuitOpen = true ↔
      (((m.UpdateStatus b now).1.failureCount * 100 /
          ((m.UpdateStatus b now).1.failureCount +
            (m.UpdateStatus b now).1.successCount) : ℕ) : ℚ) ≥ m.options.threshold) ∧
    (runUpdates (initialCircuit c2opts) [(false, 1), (true, 2), (true, 3)]).1.IsCircuitOpen
      = false := by
  refine ⟨?_, by decide⟩
  obtain ⟨hsc, hfc, _⟩ := UpdateStatus_counts m b now
  have hg : ¬ ((m.bump b now).successCount + (m.bump b now).failureCount : ℤ) <
      m.options.minimumCount := by
    rw [hsc, hfc] at hmin
    omega
  rw [UpdateStatus_circuitOpen_eval m b now hg, hfc, hsc]
  simp only [CircuitImplementation.shouldOpen, bump_options, htype, decide_eq_true_eq]

/-- Witness for C2: recording `[false, true, true]` on the P4
configuration reaches the minimum count at the third call, and the
open/closed answer agrees with the truncated failure percentage. -/
theorem percentage_policy_open_iff_witness :
    (let s2 := (runUpdates (initialCircuit c2opts) [(false, 1), (true, 2)]).1
     s2.options.thresholdType = ThresholdType.percentage ∧
      ((s2.UpdateStatus true 3).1.successCount +
        (s2.UpdateStatus true 3).1.failureCount : ℤ) ≥ s2.options.minimumCount ∧
      (((s2.UpdateStatus true 3).1.circuitOpen = true ↔
        (((s2.UpdateStatus true 3).1.failureCount * 100 /
            ((s2.UpdateStatus true 3).1.failureCount +
              (s2.UpdateStatus true 3).1.successCount) : ℕ) : ℚ) ≥ s2.options.threshold) ∧
        (runUpdates (initialCircuit c2opts) [(false, 1), (true, 2), (true, 3)]).1.IsCircuitOpen
          = false)) :=
  ⟨by decide, by decide,
    percentage_policy_open_iff (runUpdates (initialCircuit c2opts) [(false, 1), (true, 2)]).1
      true 3 (by decide) (by decide)⟩

/-- The zero-threshold Percentage configuration of claim C10. -/
def c10opts : CircuitOptions :=
  { threshold := 0, thresholdType := ThresholdType.percentage, minimumCount := 1,
    intervalInSeconds := 60, onCircuitOpen := false, onCircuitClosed := false }

/-- Claim C10: a Percentage-policy configuration with `thresholdValue = 0`
passes `ConfigureCircuit` validation (the accepted range is 0 to 100
inclusive), and once the minimum count is reached every `UpdateStatus`
call leaves such a circuit open — even when every outcome is a success —
because the truncated failure percentage is always `≥ 0`. -/
theorem percentage_zero_threshold_always_opens :
    (∀ o : CircuitOptions, o.thresholdType = ThresholdType.percentage → o.threshold = 0 →
      1 ≤ o.minimumCount → 5 ≤ o.intervalInSeconds →
      ConfigureCircuit o = Except.ok (initialCircuit o)) ∧
    (∀ (m : CircuitImplementation) (b : Bool) (now : ℤ),
      m.options.thresholdType = ThresholdType.percentage → m.options.threshold = 0 →
      ((m.UpdateStatus b now).1.successCount +
        (m.UpdateStatus b now).1.failureCount : ℤ) ≥ m.options.minimumCount →
      (m.UpdateStatus b now).1.circuitOpen = true) := by
  constructor
  · intro o htype hthr hminc hint
    have h1 : ¬ (o.threshold < 0 ∨ o.threshold > 100) := by
      rw [hthr]; norm_num
    have h2 : ¬ (o.thresholdType = ThresholdType.count) := by
      rw [htype]; intro hc; exact ThresholdType.noConfusion hc
    have h3 : ¬ (o.minimumCount < 1) := by omega
    have h4 : ¬ (o.intervalInSeconds < 5) := by omega
    simp [ConfigureCircuit, h1, h2, h3, h4]
  · intro m b now htype hthr hmin
    obtain ⟨hsc, hfc, _⟩ := UpdateStatus_counts m b now
    have hg : ¬ ((m.bump b now).successCount + (m.bump b now).failureCount : ℤ) <
        m.options.minimumCount := by
      rw [hsc, hfc] at hmin
      omega
    rw [UpdateStatus_circuitOpen_eval m b now hg]
    simp only [CircuitImplementation.shouldOpen, bump_options, htype, hthr,
      decide_eq_true_eq]
    positivity

/-- Witness for C10: the zero-threshold Percentage circuit is accepted by
validation, and a single successful outcome opens it. -/
theorem percentage_zero_threshold_witness :
    ConfigureCircuit c10opts = Except.ok (initialCircuit c10opts) ∧
      ((initialCircuit c10opts).UpdateStatus true 1).1.circuitOpen = true :=
  ⟨percentage_zero_threshold_always_opens.1 c10opts rfl rfl (by decide) (by decide),
    percentage_zero_threshold_always_opens.2 (initialCircuit c10opts) true 1 rfl rfl
      (by decide)⟩

/-- The Percentage configuration (threshold 50, minimum 4) used to witness
claim C4, mirroring the repository's `TestUpdateStatus` setup. -/
def c4opts : CircuitOptions :=
  { threshold := 50, thresholdType := ThresholdType.percentage, minimumCount := 4,
    intervalInSeconds := 60, onCircuitOpen := false, onCircuitClosed := false }

/-- Claim C4: while fewer than `minimumCount` outcomes are recorded in the
current window, `IsCircuitOpen` reports false in every reachable state,
and every `UpdateStatus` call in that regime only updates the counters and
timestamps — the open flag and opened-since timestamp are untouched and no
callback is invoked. -/
theorem minimum_samples_gate :
    (∀ (opts : CircuitOptions) (s : CircuitImplementation), Reachable opts s →
      (s.successCount + s.failureCount : ℤ) < opts.minimumCount →
      s.IsCircuitOpen = false) ∧
    (∀ (m : CircuitImplementation) (b : Bool) (now : ℤ),
      ((m.UpdateStatus b now).1.successCount +
        (m.UpdateStatus b now).1.failureCount : ℤ) < m.options.minimumCount →
      m.UpdateStatus b now = (m.bump b now, []) ∧
        (m.UpdateStatus b now).1.circuitOpen = m.circuitOpen ∧
        (m.UpdateStatus b now).1.circuitOpenedSince = m.circuitOpenedSince ∧
        (m.UpdateStatus b now).1.successCount = m.successCount + (if b then 1 else 0) ∧
        (m.UpdateStatus b now).1.failureCount = m.failureCount + (if b then 0 else 1)) := by
  constructor
  · intro opts s h hlt
    simpa [CircuitImplementation.IsCircuitOpen] using reachable_closed_below_min h hlt
  · intro m b now hlt
    obtain ⟨hsc, hfc, _⟩ := UpdateStatus_counts m b now
    have hg : ((m.bump b now).successCount + (m.bump b now).failureCount : ℤ) <
        m.options.minimumCount := by
      rw [hsc, hfc] at hlt
      exact hlt
    refine ⟨UpdateStatus_below_min m b now hg, ?_, ?_, ?_, ?_⟩
    · rw [UpdateStatus_below_min m b now hg]
      exact bump_circuitOpen m b now
    · rw [UpdateStatus_below_min m b now hg]
      exact bump_circuitOpenedSince m b now
    · rw [hsc, bump_successCount]
    · rw [hfc, bump_failureCount]

/-- Witness for C4: the fresh `c4opts` circuit reports closed, and the
first recorded failure (1 outcome < minimum 4) performs no callback. -/
theorem minimum_samples_gate_witness :
    (initialCircuit c4opts).IsCircuitOpen = false ∧
      ((initialCircuit c4opts).UpdateStatus false 1).2 = [] :=
  ⟨minimum_samples_gate.1 c4opts (initialCircuit c4opts) Reachable.init (by decide),
    congrArg Prod.snd
      ((minimum_samples_gate.2 (initialCircuit c4opts) false 1 (by decide)).1)⟩

/-- The Percentage configuration with both callbacks registered used for
the concrete once-each sequence of claim C3. -/
def c3opts : CircuitOptions :=
  { threshold := 50, thresholdType := ThresholdType.percentage, minimumCount := 2,
    intervalInSeconds := 60, onCircuitOpen := true, onCircuitClosed := true }

/-- Claim C3: with both callbacks registered, a call invokes
`OnCircuitOpen` exactly when it flips the state from closed to open and
`OnCircuitClosed` exactly when it flips the state from open to closed;
consequently the sequence `[false, false, true, true, true]` on `c3opts`
(which crosses the 50% threshold at the second call and drops back below
it at the fifth) invokes each callback exactly once. -/
theorem callbacks_fire_exactly_on_transitions (m : CircuitImplementation) (b : Bool)
    (now : ℤ) (hO : m.options.onCircuitOpen = true)
    (hC : m.options.onCircuitClosed = true) :
    (firesOnOpen (m.UpdateStatus b now).2 = true ↔
      (m.circuitOpen = false ∧ (m.UpdateStatus b now).1.circuitOpen = true)) ∧
    (firesOnClosed (m.UpdateStatus b now).2 = true ↔
      (m.circuitOpen = true ∧ (m.UpdateStatus b now).1.circuitOpen = false)) ∧
    ((runUpdates (initialCircuit c3opts)
        [(false, 1), (false, 2), (true, 3), (true, 4), (true, 5)]).2.countP isOpenCall
          = 1 ∧
      (runUpdates (initialCircuit c3opts)
        [(false, 1), (false, 2), (true, 3), (true, 4), (true, 5)]).2.countP isClosedCall
          = 1) := by
  refine ⟨?_, ?_, by decide, by decide⟩
  · rw [firesOnOpen_UpdateStatus m b now hO]
    simp
  · rw [firesOnClosed_UpdateStatus m b now hC]
    simp

/-- Witness for C3: the second call of the `c3opts` sequence (a failure at
100% failure rate reaching the minimum count) fires `OnCircuitOpen`. -/
theorem callbacks_fire_witness :
    firesOnOpen (((runUpdates (initialCircuit c3opts) [(false, 1)]).1.UpdateStatus
      false 2)).2 = true :=
  ((callbacks_fire_exactly_on_transitions
      (runUpdates (initialCircuit c3opts) [(false, 1)]).1 false 2
      (by decide) (by decide)).1).mpr ⟨by decide, by decide⟩

/-- A Consecutive-policy configuration with the fractional threshold
`1/2`, accepted by validation. -/
def c5fracOpts : CircuitOptions :=
  { threshold := mkRat 1 2, thresholdType := ThresholdType.consecutive, minimumCount := 1,
    intervalInSeconds := 60, onCircuitOpen := false, onCircuitClosed := false }

/-- Counterexample to claim C5 as stated: against `thresholdValue = 1/2`
(which validation accepts) and `minimumCount = 1`, a single successful
outcome leaves the consecutive run at 0 yet opens the circuit, because the
code compares the run with `int64(thresholdValue) = 0` rather than with
`thresholdValue`: the claimed condition `run ≥ thresholdValue` is false
(`0 < 1/2`) while the circuit is open. -/
theorem consecutive_truncation_counterexample :
    ConfigureCircuit c5fracOpts = Except.ok (initialCircuit c5fracOpts) ∧
      ((initialCircuit c5fracOpts).UpdateStatus true 1).1.circuitOpen = true ∧
      ((((initialCircuit c5fracOpts).UpdateStatus true 1).1.consecutiveCounter : ℚ) <
        c5fracOpts.threshold) :=
  ⟨rfl, by decide, by decide⟩

/-- The Consecutive-policy configuration of spec property P5 (claim C5). -/
def c5opts : CircuitOptions :=
  { threshold := 2, thresholdType := ThresholdType.consecutive, minimumCount := 2,
    intervalInSeconds := 60, onCircuitOpen := false, onCircuitClosed := false }

/-- Claim C5 (amended): the consecutive-failure counter after any call
sequence is the length of the trailing run of failures (any success
resets it, each failure extends it); once the minimum count is reached
the circuit is open iff the run is `≥ int64(thresholdValue)` — the
threshold truncated toward zero, which equals `thresholdValue` whenever
the configured threshold is an integer; and the concrete
`[false, true, false]` example against `threshold=2, minimumCount=2`
yields runs 1, 0, 1 with the circuit never open. -/
theorem consecutive_policy_run_and_threshold :
    (∀ (opts : CircuitOptions) (xs : List (Bool × ℤ)),
      (runUpdates (initialCircuit opts) xs).1.consecutiveCounter =
        trailingFailures (xs.map Prod.fst)) ∧
    (∀ (m : CircuitImplementation) (b : Bool) (now : ℤ),
      m.options.thresholdType = ThresholdType.consecutive →
      ((m.UpdateStatus b now).1.successCount +
        (m.UpdateStatus b now).1.failureCount : ℤ) ≥ m.options.minimumCount →
      ((m.UpdateStatus b now).1.circuitOpen = true ↔
        ((m.UpdateStatus b now).1.consecutiveCounter : ℤ) ≥
          truncRat m.options.threshold)) ∧
    ((runUpdates (initialCircuit c5opts) [(false, 1)]).1.consecutiveCounter = 1 ∧
      (runUpdates (initialCircuit c5opts) [(false, 1)]).1.IsCircuitOpen = false) ∧
    ((runUpdates (initialCircuit c5opts) [(false, 1), (true, 2)]).1.consecutiveCounter = 0 ∧
      (runUpdates (initialCircuit c5opts) [(false, 1), (true, 2)]).1.IsCircuitOpen = false) ∧
    ((runUpdates (initialCircuit c5opts)
        [(false, 1), (true, 2), (false, 3)]).1.consecutiveCounter = 1 ∧
      (runUpdates (initialCircuit c5opts)
        [(false, 1), (true, 2), (false, 3)]).1.IsCircuitOpen = false) := by
  refine ⟨runUpdates_consecutiveCounter, ?_, by decide, by decide, by decide⟩
  intro m b now htype hmin
  obtain ⟨hsc, hfc, hcc⟩ := UpdateStatus_counts m b now
  have hg : ¬ ((m.bump b now).successCount + (m.bump b now).failureCount : ℤ) <
      m.options.minimumCount := by
    rw [hsc, hfc] at hmin
    omega
  rw [UpdateStatus_circuitOpen_eval m b now hg, hcc]
  simp only [CircuitImplementation.shouldOpen, bump_options, htype, decide_eq_true_eq]

/-- Witness for C5 (amended): a second consecutive failure on `c5opts`
reaches both the minimum count and the truncated threshold, opening the
circuit in agreement with the stated equivalence. -/
theorem consecutive_policy_run_witness :
    (((runUpdates (initialCircuit c5opts) [(false, 1)]).1.UpdateStatus false 2).1.circuitOpen
      = true) :=
  ((consecutive_policy_run_and_threshold.2.1
      (runUpdates (initialCircuit c5opts) [(false, 1)]).1 false 2
      (by decide) (by decide))).mpr (by decide)

/-- A Consecutive-policy circuit with a live failure run, used to show
that the ticker rollover clears the run. -/
def c6opts : CircuitOptions :=
  { threshold := 5, thresholdType := ThresholdType.consecutive, minimumCount := 10,
    intervalInSeconds := 60, onCircuitOpen := false, onCircuitClosed := true }

/-- Counterexample to claim C6 as stated: the window rollover does not
leave the consecutive-failure run unchanged — a circuit whose run is 1
has run 0 after the ticker reset. -/
theorem rollover_resets_consecutive_counterexample :
    (runUpdates (initialCircuit c6opts) [(false, 1)]).1.consecutiveCounter = 1 ∧
      ((runUpdates (initialCircuit c6opts) [(false, 1)]).1.tickerReset 2).1.consecutiveCounter
        = 0 :=
  ⟨by decide, by decide⟩

/-- Claim C6 (amended): the ticker rollover zeroes `successCount`,
`failureCount`, `openedAtTimestamp` and the consecutive-failure run
together — never one without the others — and closes the circuit, leaving
the configuration and the last-captured timestamp untouched; the run is
also reset by every recorded success. -/
theorem rollover_reset_fields :
    ∀ (m : CircuitImplementation) (now : ℤ),
      ((m.tickerReset now).1.successCount = 0 ∧
        (m.tickerReset now).1.failureCount = 0 ∧
        (m.tickerReset now).1.circuitOpenedSince = 0 ∧
        (m.tickerReset now).1.consecutiveCounter = 0 ∧
        (m.tickerReset now).1.circuitOpen = false ∧
        (m.tickerReset now).1.options = m.options ∧
        (m.tickerReset now).1.lastCapturedAt = m.lastCapturedAt) ∧
      (m.UpdateStatus true now).1.consecutiveCounter = 0 := by
  intro m now
  refine ⟨by simp [CircuitImplementation.tickerReset], ?_⟩
  rw [UpdateStatus_consecutiveCounter]
  simp

/-- Fresh legacy monitor (`COUNT` policy, threshold 1, minimum count 1,
60-second window) used to drive the stale-window counterexample. -/
def staleMon : Monitor :=
  { circuitOpen := false, lastCapturedAt := 0, circuitOpenedSince := 0,
    failureCount := 0, successCount := 0, threshold := 1,
    thresholdType := ThresholdType.count, minimumCount := 1, intervalInSeconds := 60 }

/-- Counterexample to claim C7 as stated: two failures at time 60 open the
legacy monitor with `CircuitOpenedSince = 60`; the stale-window handling
of the legacy `IsCircuitOpen`, read at time 120, clears the open flag but
leaves `CircuitOpenedSince = 60 ≠ 0`, so the claimed
`Closed ⇒ openedAtTimestamp == 0` half of the coupling is not preserved
by that operation. -/
theorem stale_read_coupling_counterexample :
    (updateStatusByMonitor (updateStatusByMonitor staleMon false 60) false 60).circuitOpen
        = true ∧
      (IsCircuitOpen (updateStatusByMonitor (updateStatusByMonitor staleMon false 60) false 60)
          120).1.circuitOpen = false ∧
      (IsCircuitOpen (updateStatusByMonitor (updateStatusByMonitor staleMon false 60) false 60)
          120).1.circuitOpenedSince = 60 :=
  ⟨by decide, by decide, by decide⟩

/-- Claim C7 (amended): in every state of the current engine reachable by
construction, `UpdateStatus` calls at positive Unix timestamps and ticker
rollovers, the coupling holds: `state == Open` implies
`CircuitOpenedSince > 0` and `state == Closed` implies
`CircuitOpenedSince == 0`.  (The stale-window read path of the legacy
`IsCircuitOpen` does not preserve the coupling — see the
counterexample.) -/
theorem state_openedSince_coupling (opts : CircuitOptions) (s : CircuitImplementation)
    (h : Reachable opts s) :
    (s.circuitOpen = true → 0 < s.circuitOpenedSince) ∧
    (s.circuitOpen = false → s.circuitOpenedSince = 0) :=
  reachable_coupling h

/-- The Count configuration (threshold 1, minimum 1) whose first failure
immediately opens the circuit, used to witness claim C7. -/
def c7opts : CircuitOptions :=
  { threshold := 1, thresholdType := ThresholdType.count, minimumCount := 1,
    intervalInSeconds := 60, onCircuitOpen := false, onCircuitClosed := false }

/-- Witness for C7: after one failure at time 1 the `c7opts` circuit is
open and its opened-since timestamp is positive, via the coupling theorem
at a concrete reachable state. -/
theorem state_openedSince_coupling_witness :
    ((initialCircuit c7opts).UpdateStatus false 1).1.circuitOpen = true ∧
      0 < ((initialCircuit c7opts).UpdateStatus false 1).1.circuitOpenedSince :=
  ⟨by decide,
    (state_openedSince_coupling c7opts ((initialCircuit c7opts).UpdateStatus false 1).1
        (Reachable.update (initialCircuit c7opts) false 1 (by decide) Reachable.init)).1
      (by decide)⟩

/-- `ConfigureCircuit` rejects a non-positive threshold under the Count
policy (the second validation step). -/
lemma ConfigureCircuit_count_nonpos (o : CircuitOptions)
    (htype : o.thresholdType = ThresholdType.count) (hle : o.threshold ≤ 0) :
    ConfigureCircuit o = Except.error "invalid threshold value for count type" := by
  have h1 : ¬ (o.thresholdType = ThresholdType.percentage ∧
      (o.threshold < 0 ∨ o.threshold > 100)) := by
    rw [htype]
    rintro ⟨hc, -⟩
    exact ThresholdType.noConfusion hc
  simp [ConfigureCircuit, h1, htype, hle]

/-- A Count-policy configuration with `thresholdValue = 0`. -/
def c8countOpts : CircuitOptions :=
  { threshold := 0, thresholdType := ThresholdType.count, minimumCount := 1,
    intervalInSeconds := 60, onCircuitOpen := false, onCircuitClosed := false }

/-- A valid Count-policy configuration, accepted by `ConfigureCircuit`. -/
def c8okOpts : CircuitOptions :=
  { threshold := 2, thresholdType := ThresholdType.count, minimumCount := 3,
    intervalInSeconds := 60, onCircuitOpen := false, onCircuitClosed := false }

/-- The Consecutive-policy configuration with `thresholdValue = 0` that
validation accepts, refuting half of claim C8. -/
def c8consecOpts : CircuitOptions :=
  { threshold := 0, thresholdType := ThresholdType.consecutive, minimumCount := 1,
    intervalInSeconds := 60, onCircuitOpen := false, onCircuitClosed := false }

/-- Counterexample to claim C8 as stated: a Consecutive-policy
configuration with `thresholdValue = 0 ≤ 0` passes `ConfigureCircuit`
validation — the positive-threshold check is applied to the Count policy
only. -/
theorem consecutive_zero_threshold_accepted :
    c8consecOpts.thresholdType = ThresholdType.consecutive ∧
      c8consecOpts.threshold ≤ 0 ∧
      ConfigureCircuit c8consecOpts = Except.ok (initialCircuit c8consecOpts) :=
  ⟨by decide, by decide, rfl⟩

/-- Claim C8 (amended): construction fails with the invalid-threshold
error whenever the policy is Count and `thresholdValue ≤ 0`; equivalently
every successfully constructed Count-policy circuit has a positive
threshold.  The Consecutive policy's threshold is not validated. -/
theorem count_threshold_validation :
    (∀ o : CircuitOptions, o.thresholdType = ThresholdType.count → o.threshold ≤ 0 →
      ConfigureCircuit o = Except.error "invalid threshold value for count type") ∧
    (∀ (o : CircuitOptions) (m : CircuitImplementation),
      o.thresholdType = ThresholdType.count →
      ConfigureCircuit o = Except.ok m → 0 < o.threshold) := by
  refine ⟨fun o h1 h2 => ConfigureCircuit_count_nonpos o h1 h2, ?_⟩
  intro o m htype hok
  by_contra hpos
  push_neg at hpos
  rw [ConfigureCircuit_count_nonpos o htype hpos] at hok
  exact Except.noConfusion hok

/-- Witness for C8 (amended): the zero-threshold Count configuration is
rejected, while the accepted `c8okOpts` configuration has a positive
threshold. -/
theorem count_threshold_validation_witness :
    ConfigureCircuit c8countOpts = Except.error "invalid threshold value for count type" ∧
      0 < c8okOpts.threshold :=
  ⟨count_threshold_validation.1 c8countOpts (by decide) (by decide),
    count_threshold_validation.2 c8okOpts (initialCircuit c8okOpts) (by decide) rfl⟩
